import Mathlib

/-!
Verification of the property-listing API (src/main.py, src/schemas.py)
against its specification. The data models and handlers are shallowly
embedded: the MongoDB store becomes an explicit `Store` record threaded
through the handlers, BSON ObjectIds become 96-bit naturals rendered as
24-character hex strings, and pydantic validation becomes boolean
predicates mirroring the `Field` constraints declared in schemas.py.
-/

namespace PropertySale

/-! ## Data models (src/schemas.py) -/

/-- The `Property` pydantic model of schemas.py. `bathrooms: float` carries
no arithmetic in this program (it is validated and stored verbatim), so it
is embedded as `Rat`. `images: List[HttpUrl]` is embedded as the list of
URL strings. -/
structure Property where
  title : String
  description : String
  address : String
  city : String
  state : String
  price : Int
  bedrooms : Int
  bathrooms : Rat
  area_sqft : Int
  status : String := "available"
  images : List String := []
  tags : List String := []
deriving DecidableEq, Repr

/-- The `Offer` pydantic model of schemas.py. -/
structure Offer where
  property_id : String
  full_name : String
  email : String
  phone : Option String := none
  amount : Int
  message : Option String := none
  status : String := "pending"
deriving DecidableEq, Repr

/-- The `AdminSettings` pydantic model of schemas.py, with its declared
field defaults. -/
structure AdminSettings where
  primary_color : String := "#f97316"
  accent_color : String := "#111827"
  hero_heading : String := "Find your next place"
  hero_subheading : String := "Modern homes, transparent offers, secure management."
  announcement : Option String := some "New listings dropping weekly — submit an offer in minutes!"
deriving DecidableEq, Repr

/-- Pydantic's `HttpUrl` syntactic check, abstracted. No claim under
verification exercises URL grammar; only the structural fact that each
image entry passes a per-string syntactic check matters, so the check is
kept to the scheme requirement its name documents. -/
def httpUrlValid (s : String) : Bool :=
  s.startsWith "http://" || s.startsWith "https://"

/-- Pydantic's `EmailStr` syntactic check, abstracted the same way: a
local part, one at-sign, and a domain. No claim exercises email grammar. -/
def emailValid (s : String) : Bool :=
  match s.split (fun c => c = '@') with
  | [l, d] => !l.isEmpty && !d.isEmpty
  | _ => false

/-- The four `ge=0` constraints on `Property` declared in schemas.py
(price, bedrooms, bathrooms, area_sqft). -/
def propertyGeOk (p : Property) : Bool :=
  decide (0 ≤ p.price) && decide (0 ≤ p.bedrooms) &&
  decide (0 ≤ p.bathrooms) && decide (0 ≤ p.area_sqft)

/-- Pydantic validation of a `Property` payload: the declared `Field`
constraints of schemas.py. The text fields (`title`, `description`,
`address`, `city`, `state`) are plain `str` fields with no constraint
declared, so they are not checked. -/
def propertyValid (p : Property) : Bool :=
  propertyGeOk p && p.images.all httpUrlValid

/-- The `ge=0` constraint on `Offer.amount` declared in schemas.py. -/
def offerGeOk (o : Offer) : Bool :=
  decide (0 ≤ o.amount)

/-- Pydantic validation of an `Offer` payload: `EmailStr` on `email` and
`ge=0` on `amount`; the remaining fields are unconstrained strings. -/
def offerValid (o : Offer) : Bool :=
  offerGeOk o && emailValid o.email

/-! ## ObjectId model (bson.ObjectId)

A BSON ObjectId is a 12-byte value whose string form is 24 hex
characters; `ObjectId(id_str)` accepts exactly the 24-character hex
strings (either case) and `str(oid)` renders lowercase hex. It is
embedded as a natural number below `16^24` together with a fuel-based
hex encoder/decoder, so every definition reduces in the kernel. -/

/-- A store-native document identifier (the 12-byte ObjectId value). -/
structure ObjectId where
  val : Nat
deriving DecidableEq, Repr

/-- Hex rendering of one digit value (lowercase, as `str(ObjectId)`):
digit values become the characters after `'0'`, the rest the lowercase
letters after `'a'`. -/
def toHexChar (d : Nat) : Char :=
  if d < 10 then Char.ofNat (48 + d) else Char.ofNat (87 + d)

/-- Numeric value of one hex character (either case). -/
def fromHexChar (c : Char) : Nat :=
  if c.isDigit then c.toNat - 48
  else if 'a' ≤ c && c ≤ 'f' then c.toNat - 97 + 10
  else if 'A' ≤ c && c ≤ 'F' then c.toNat - 65 + 10
  else 0

/-- Whether a character is a hex digit (either case). -/
def isHexChar (c : Char) : Bool :=
  c.isDigit || ('a' ≤ c && c ≤ 'f') || ('A' ≤ c && c ≤ 'F')

/-- The strings accepted by `bson.ObjectId`: exactly 24 hex characters. -/
def objectIdValid (s : String) : Bool :=
  s.length == 24 && s.data.all isHexChar

/-- Big-endian hex rendering of `n mod 16^fuel`, exactly `fuel` chars. -/
def natToHexAux : Nat → Nat → List Char
  | 0, _ => []
  | fuel + 1, n => natToHexAux fuel (n / 16) ++ [toHexChar (n % 16)]

/-- The 24-character lowercase hex string of an ObjectId value,
mirroring `str(ObjectId)`. -/
def natToHex24 (n : Nat) : String :=
  String.mk (natToHexAux 24 n)

/-- String rendering of a native identifier, as `str(doc["_id"])`. -/
def ObjectId.render (o : ObjectId) : String :=
  natToHex24 o.val

/-- Numeric value of a big-endian hex string, mirroring ObjectId parsing
(case-insensitive). -/
def hexDecode (s : String) : Nat :=
  s.data.foldl (fun acc c => acc * 16 + fromHexChar c) 0

/-- The HTTP-style errors raised by the handlers via `HTTPException`. -/
structure HttpError where
  status : Nat
  detail : String
deriving DecidableEq, Repr

/-- The `ensure_object_id` utility of main.py: parse the identifier
string, raising 400 "Invalid id" when `bson.ObjectId` rejects it. -/
def ensure_object_id (id_str : String) : Except HttpError ObjectId :=
  if objectIdValid id_str then Except.ok ⟨hexDecode id_str⟩
  else Except.error ⟨400, "Invalid id"⟩

/-! ### Hex round-trip lemmas -/

theorem fromHexChar_toHexChar : ∀ d : Nat, d < 16 → fromHexChar (toHexChar d) = d := by
  decide

theorem isHexChar_toHexChar : ∀ d : Nat, d < 16 → isHexChar (toHexChar d) = true := by
  decide

theorem natToHexAux_length (fuel : Nat) : ∀ n, (natToHexAux fuel n).length = fuel := by
  induction fuel with
  | zero => intro n; rfl
  | succ f ih =>
      intro n
      simp [natToHexAux, ih]

theorem natToHexAux_all_hex (fuel : Nat) :
    ∀ n, ∀ c ∈ natToHexAux fuel n, isHexChar c = true := by
  induction fuel with
  | zero => intro n c hc; simp [natToHexAux] at hc
  | succ f ih =>
      intro n c hc
      simp only [natToHexAux, List.mem_append, List.mem_singleton] at hc
      rcases hc with hc | hc
      · exact ih _ c hc
      · subst hc
        exact isHexChar_toHexChar _ (Nat.mod_lt _ (by norm_num))

theorem mod_pow_succ_sixteen (f n : Nat) :
    n % 16 ^ (f + 1) = (n / 16 % 16 ^ f) * 16 + n % 16 := by
  have ha : n / 16 % 16 ^ f < 16 ^ f := Nat.mod_lt _ (pow_pos (by norm_num) f)
  have hb : n % 16 < 16 := Nat.mod_lt _ (by norm_num)
  have hq : n = 16 ^ (f + 1) * (n / 16 / 16 ^ f) + ((n / 16 % 16 ^ f) * 16 + n % 16) := by
    calc n = 16 * (n / 16) + n % 16 := by rw [Nat.mul_comm]; omega
      _ = 16 * (16 ^ f * (n / 16 / 16 ^ f) + n / 16 % 16 ^ f) + n % 16 := by
            rw [Nat.div_add_mod (n / 16) (16 ^ f)]
      _ = 16 ^ (f + 1) * (n / 16 / 16 ^ f) + ((n / 16 % 16 ^ f) * 16 + n % 16) := by ring
  have hlt : (n / 16 % 16 ^ f) * 16 + n % 16 < 16 ^ (f + 1) := by
    have h3 : (n / 16 % 16 ^ f + 1) * 16 ≤ 16 ^ f * 16 :=
      Nat.mul_le_mul_right _ (Nat.succ_le_of_lt ha)
    have h4 : (16 : Nat) ^ (f + 1) = 16 ^ f * 16 := by ring
    omega
  conv_lhs => rw [hq]
  rw [Nat.mul_add_mod, Nat.mod_eq_of_lt hlt]

theorem foldl_natToHexAux (fuel : Nat) :
    ∀ n acc, (natToHexAux fuel n).foldl (fun acc c => acc * 16 + fromHexChar c) acc
      = acc * 16 ^ fuel + n % 16 ^ fuel := by
  induction fuel with
  | zero => intro n acc; simp [natToHexAux, Nat.mod_one]
  | succ f ih =>
      intro n acc
      rw [natToHexAux, List.foldl_append, ih]
      simp only [List.foldl_cons, List.foldl_nil]
      rw [fromHexChar_toHexChar _ (Nat.mod_lt _ (by norm_num))]
      rw [mod_pow_succ_sixteen]
      ring

/-- Decoding inverts rendering below `16 ^ 24`. -/
theorem hexDecode_natToHex24 (n : Nat) (h : n < 16 ^ 24) :
    hexDecode (natToHex24 n) = n := by
  have := foldl_natToHexAux 24 n 0
  simp only [hexDecode, natToHex24]
  rw [this]
  simpa using Nat.mod_eq_of_lt h

/-- A rendered identifier is a valid ObjectId string. -/
theorem objectIdValid_natToHex24 (n : Nat) :
    objectIdValid (natToHex24 n) = true := by
  simp only [objectIdValid, natToHex24, Bool.and_eq_true, beq_iff_eq]
  constructor
  · show (String.mk (natToHexAux 24 n)).length = 24
    simpa [String.length] using natToHexAux_length 24 n
  · simpa [List.all_eq_true] using natToHexAux_all_hex 24 n

/-- Rendering is injective below `16 ^ 24`. -/
theorem natToHex24_injOn (m n : Nat) (hm : m < 16 ^ 24) (hn : n < 16 ^ 24)
    (h : natToHex24 m = natToHex24 n) : m = n := by
  have := congrArg hexDecode h
  rwa [hexDecode_natToHex24 m hm, hexDecode_natToHex24 n hn] at this

/-! ## The document store

MongoDB is the external collaborator; its observable behaviour at the
calls the handlers make is embedded as explicit state. Each collection
is a list of documents in insertion order (`find_one({})` and unordered
`find` return documents in store-native order, modelled as list order);
a fresh ObjectId for an insert is drawn from a counter. The settings
collection holds free-form documents, so a settings document stores each
field optionally: a `$set` upsert may create a document carrying only
the updated fields. -/

/-- A stored property document: native `_id` plus the business fields. -/
structure PropertyDoc where
  oid : ObjectId
  data : Property
deriving DecidableEq, Repr

/-- A stored offer document. -/
structure OfferDoc where
  oid : ObjectId
  data : Offer
deriving DecidableEq, Repr

/-- The free-form settings document: every field optional, since a
`$set` upsert creates a document holding only the set fields. -/
structure SettingsDoc where
  primary_color : Option String := none
  accent_color : Option String := none
  hero_heading : Option String := none
  hero_subheading : Option String := none
  announcement : Option String := none
deriving DecidableEq, Repr

/-- A stored settings document. -/
structure SettingsStoredDoc where
  oid : ObjectId
  data : SettingsDoc
deriving DecidableEq, Repr

/-- The database state: the three collections of main.py plus the
counter from which fresh ObjectIds are drawn. -/
structure Store where
  property : List PropertyDoc
  offer : List OfferDoc
  adminsettings : List SettingsStoredDoc
  nextId : Nat
deriving DecidableEq, Repr

/-- Modelled from the spec: `database.create_document` (database.py is
not under src/). Per §4.2, `create(kind, model)` serializes the
validated model to a document, inserts it, and returns the new
identifier as a string; side effect is one insert. Specialization to the
`property` collection. -/
def create_document_property (s : Store) (p : Property) : Store × String :=
  ({ s with property := s.property ++ [⟨⟨s.nextId⟩, p⟩], nextId := s.nextId + 1 },
   ObjectId.render ⟨s.nextId⟩)

/-- Modelled from the spec: `database.create_document` specialized to
the `offer` collection (same gateway contract as for properties). -/
def create_document_offer (s : Store) (o : Offer) : Store × String :=
  ({ s with offer := s.offer ++ [⟨⟨s.nextId⟩, o⟩], nextId := s.nextId + 1 },
   ObjectId.render ⟨s.nextId⟩)

/-- Modelled from the spec: `database.get_documents` (database.py is not
under src/). Per §4.2, `list(kind, filter)` returns all documents
matching an exact-match filter, the empty filter matching everything,
with no side effect. The handlers build the filter from their optional
parameters; the resulting per-document condition is passed here as a
predicate. Specialization to the `property` collection. -/
def get_documents_property (s : Store) (cond : Property → Bool) : List PropertyDoc :=
  s.property.filter (fun d => cond d.data)

/-- Modelled from the spec: `database.get_documents` specialized to the
`offer` collection. -/
def get_documents_offer (s : Store) (cond : Offer → Bool) : List OfferDoc :=
  s.offer.filter (fun d => cond d.data)

/-! ## Resource handlers (src/main.py) -/

/-- One optional query parameter's contribution to the exact-match
filter. The handlers test the parameter with Python truthiness
(`if city:`), so a condition is added exactly when the parameter is
present and non-empty; otherwise the document passes unconditionally. -/
def condQ (param : Option String) (field : String) : Bool :=
  match param with
  | none => true
  | some c => if c = "" then true else field == c

/-- The `GET /properties` handler `list_properties`: build the filter
from the truthy parameters, fetch, and stringify each `_id`. -/
def list_properties (s : Store) (city status : Option String) :
    List (String × Property) :=
  (get_documents_property s
      (fun p => condQ city p.city && condQ status p.status)).map
    (fun d => (d.oid.render, d.data))

/-- The `GET /properties/{prop_id}` handler `get_property`: parse the
identifier (400 on failure), look the document up (404 when absent),
and return it with `_id` stringified. -/
def get_property (s : Store) (prop_id : String) :
    Except HttpError (String × Property) :=
  match ensure_object_id prop_id with
  | Except.error e => Except.error e
  | Except.ok oid =>
      match s.property.find? (fun d => d.oid == oid) with
      | none => Except.error ⟨404, "Property not found"⟩
      | some d => Except.ok (d.oid.render, d.data)

/-- The `POST /offers` handler `submit_offer`: parse `property_id` (400
on failure), check the referenced property exists (404 otherwise), then
insert the offer and acknowledge with its new id and `"submitted"`. The
store is returned alongside the response to make the write (or its
absence) observable. -/
def submit_offer (s : Store) (offer : Offer) :
    Store × Except HttpError (String × String) :=
  match ensure_object_id offer.property_id with
  | Except.error e => (s, Except.error e)
  | Except.ok oid =>
      match s.property.find? (fun d => d.oid == oid) with
      | none => (s, Except.error ⟨404, "Property not found for this offer"⟩)
      | some _ =>
          let r := create_document_offer s offer
          (r.1, Except.ok (r.2, "submitted"))

/-- The `POST /offers` endpoint including the framework step that
precedes the handler: the request body is validated against the `Offer`
model, and a validation failure is rejected (422) before any handler
logic or store access runs. -/
def submit_offer_endpoint (s : Store) (offer : Offer) :
    Store × Except HttpError (String × String) :=
  if offerValid offer then submit_offer s offer
  else (s, Except.error ⟨422, "Unprocessable Entity"⟩)

/-- Creation of a property through the validation boundary: pydantic
validation of the `Property` payload precedes the gateway insert, and a
failure is rejected (422) with no store access. (main.py exposes no
dedicated create-property endpoint; properties enter the store through
validated `Property` models handed to the gateway.) -/
def create_property_validated (s : Store) (p : Property) :
    Store × Except HttpError String :=
  if propertyValid p then
    let r := create_document_property s p
    (r.1, Except.ok r.2)
  else (s, Except.error ⟨422, "Unprocessable Entity"⟩)

/-- The `GET /offers` handler `list_offers`: filter by the raw
`property_id` string when truthy, stringify each `_id`. No identifier
parsing is applied to the parameter. -/
def list_offers (s : Store) (property_id : Option String) :
    List (String × Offer) :=
  (get_documents_offer s (fun o => condQ property_id o.property_id)).map
    (fun d => (d.oid.render, d.data))

/-- The response of the settings endpoints: either the defaults
synthesized by `AdminSettings().model_dump()` (no `_id`), or a stored
document with its `_id` stringified. -/
inductive SettingsView where
  | defaults (a : AdminSettings)
  | stored (id : String) (d : SettingsDoc)
deriving DecidableEq, Repr

/-- The `GET /admin/settings` handler `read_settings`: `find_one({})` on
the settings collection; synthesize the model defaults when no document
exists, otherwise return the stored document with `_id` stringified. The
store is returned unchanged (the handler performs no write). -/
def read_settings (s : Store) : Store × SettingsView :=
  match s.adminsettings.head? with
  | none => (s, SettingsView.defaults {})
  | some d => (s, SettingsView.stored d.oid.render d.data)

/-- The `SettingsUpdate` request model of main.py: every field optional,
defaulting to `None`. -/
structure SettingsUpdate where
  primary_color : Option String := none
  accent_color : Option String := none
  hero_heading : Option String := none
  hero_subheading : Option String := none
  announcement : Option String := none
deriving DecidableEq, Repr

/-- Whether `update_data` — the payload restricted to its non-`None`
fields — is empty. -/
def SettingsUpdate.isEmptyUpdate (p : SettingsUpdate) : Bool :=
  p.primary_color.isNone && p.accent_color.isNone && p.hero_heading.isNone &&
  p.hero_subheading.isNone && p.announcement.isNone

/-- The effect of `$set` with `update_data` on one settings document:
each non-`None` payload field overwrites, every other field keeps its
stored value. -/
def applySet (d : SettingsDoc) (p : SettingsUpdate) : SettingsDoc where
  primary_color := match p.primary_color with
    | some v => some v
    | none => d.primary_color
  accent_color := match p.accent_color with
    | some v => some v
    | none => d.accent_color
  hero_heading := match p.hero_heading with
    | some v => some v
    | none => d.hero_heading
  hero_subheading := match p.hero_subheading with
    | some v => some v
    | none => d.hero_subheading
  announcement := match p.announcement with
    | some v => some v
    | none => d.announcement

/-- The `PUT /admin/settings` handler `update_settings`: drop the `None`
fields from the payload; when nothing remains, perform no write and
return `read_settings`; otherwise `update_one({}, set, upsert=True)` —
merge into the first settings document, or create one holding exactly
the set fields when the collection is empty — and return the settings as
re-read from the store. -/
def update_settings (s : Store) (payload : SettingsUpdate) :
    Store × SettingsView :=
  if payload.isEmptyUpdate then read_settings s
  else
    match s.adminsettings with
    | [] =>
        read_settings
          { s with
            adminsettings := [⟨⟨s.nextId⟩, applySet {} payload⟩],
            nextId := s.nextId + 1 }
    | d :: rest =>
        read_settings { s with adminsettings := ⟨d.oid, applySet d.data payload⟩ :: rest }

/-! ## Concrete fixtures used by the witnesses -/

/-- A concrete valid property (values from the seed data shapes). -/
def sampleProperty : Property :=
  { title := "Cozy Suburban Home", description := "Renovated kitchen.",
    address := "456 Grove St", city := "Austin", state := "TX",
    price := 620000, bedrooms := 3, bathrooms := 2, area_sqft := 1800,
    status := "available", images := [], tags := ["yard"] }

/-- A second concrete property, created during the witnesses. -/
def secondProperty : Property :=
  { title := "Sunny Modern Loft", description := "Open-plan loft.",
    address := "123 Orange Ave", city := "Los Angeles", state := "CA",
    price := 975000, bedrooms := 2, bathrooms := 3 / 2, area_sqft := 1200,
    status := "available", images := ["https://example.com/a.jpg"],
    tags := ["loft"] }

/-- A concrete valid offer against the stored sample property. -/
def sampleOffer : Offer :=
  { property_id := natToHex24 5, full_name := "Jane Doe",
    email := "jane@example.com", phone := none, amount := 600000,
    message := none, status := "pending" }

/-- A store holding one property under ObjectId 5. -/
def sampleStore : Store :=
  { property := [⟨⟨5⟩, sampleProperty⟩], offer := [], adminsettings := [],
    nextId := 6 }

/-- A concrete partial settings document. -/
def sampleSettingsDoc : SettingsDoc :=
  { primary_color := some "#000000", accent_color := some "#ffffff",
    hero_heading := none, hero_subheading := none,
    announcement := some "Spring open house" }

/-- A store holding one settings document under ObjectId 3. -/
def settingsStore : Store :=
  { property := [], offer := [], adminsettings := [⟨⟨3⟩, sampleSettingsDoc⟩],
    nextId := 4 }

/-! ## Helper lemmas -/

theorem objectIdValid_ne_empty (pid : String) (h : objectIdValid pid = true) :
    pid ≠ "" := by
  intro he
  rw [he] at h
  exact absurd h (by decide)

theorem find?_fresh (l : List PropertyDoc) (n : Nat) (p : Property)
    (h : ∀ d ∈ l, d.oid.val ≠ n) :
    (l ++ [(⟨⟨n⟩, p⟩ : PropertyDoc)]).find? (fun d => d.oid == (⟨n⟩ : ObjectId))
      = some ⟨⟨n⟩, p⟩ := by
  induction l with
  | nil => simp [List.find?]
  | cons d l ih =>
      have hd : (d.oid == (⟨n⟩ : ObjectId)) = false := by
        have hne : d.oid.val ≠ n := h d (by simp)
        simp only [beq_eq_false_iff_ne, ne_eq]
        intro hEq
        exact hne (by rw [hEq])
      simp only [List.cons_append, List.find?_cons, hd]
      exact ih (fun e he => h e (by simp [he]))

theorem get_property_eq (s : Store) (pid : String) :
    get_property s pid =
      if objectIdValid pid then
        match s.property.find? (fun d => d.oid == (⟨hexDecode pid⟩ : ObjectId)) with
        | none => Except.error ⟨404, "Property not found"⟩
        | some d => Except.ok (d.oid.render, d.data)
      else Except.error ⟨400, "Invalid id"⟩ := by
  by_cases h : objectIdValid pid <;> simp [get_property, ensure_object_id, h]

theorem condQ_eq_true_iff (param : Option String) (field : String) :
    condQ param field = true ↔ ∀ c, param = some c → c ≠ "" → field = c := by
  cases param with
  | none => simp [condQ]
  | some c =>
      by_cases hc : c = ""
      · subst hc
        simp [condQ]
      · simp [condQ, hc]

/-! ## Claims -/

/-- C3: Get Property fails with status 400 ("Invalid id") exactly when
the identifier string does not decode to a valid ObjectId — never with
404 in that case — fails with 404 ("Property not found") when the
identifier is well-formed but matches no stored property, and otherwise
returns the matching document. -/
theorem getProperty_error_contract (s : Store) (pid : String) :
    (objectIdValid pid = false →
      get_property s pid = Except.error ⟨400, "Invalid id"⟩)
    ∧ (objectIdValid pid = true →
        s.property.find? (fun d => d.oid == (⟨hexDecode pid⟩ : ObjectId)) = none →
        get_property s pid = Except.error ⟨404, "Property not found"⟩)
    ∧ (∀ d, objectIdValid pid = true →
        s.property.find? (fun d => d.oid == (⟨hexDecode pid⟩ : ObjectId)) = some d →
        get_property s pid = Except.ok (d.oid.render, d.data)) := by
  refine ⟨?_, ?_, ?_⟩
  · intro h
    simp [get_property, ensure_object_id, h]
  · intro h hf
    simp [get_property, ensure_object_id, h, hf]
  · intro d h hf
    simp [get_property, ensure_object_id, h, hf]

/-- Witness for C3 at concrete inputs: a malformed identifier, a
well-formed unmatched identifier, and the stored identifier. -/
theorem getProperty_error_contract_witness :
    get_property sampleStore "zz" = Except.error ⟨400, "Invalid id"⟩
    ∧ get_property sampleStore (natToHex24 7) =
        Except.error ⟨404, "Property not found"⟩
    ∧ get_property sampleStore (natToHex24 5) =
        Except.ok (ObjectId.render ⟨5⟩, sampleProperty) :=
  ⟨(getProperty_error_contract sampleStore "zz").1 (by decide),
   (getProperty_error_contract sampleStore (natToHex24 7)).2.1 (by decide) (by decide),
   (getProperty_error_contract sampleStore (natToHex24 5)).2.2
     ⟨⟨5⟩, sampleProperty⟩ (by decide) (by decide)⟩

/-- C4: Read Settings on a store with no settings document returns
exactly the documented defaults for every field and persists nothing
(the handler leaves the store unchanged, so the settings collection
still holds zero documents); with a stored document it returns it as
stored. -/
theorem readSettings_defaults_contract (s : Store) :
    (read_settings s).1 = s
    ∧ (s.adminsettings = [] →
        (read_settings s).2 = SettingsView.defaults
          { primary_color := "#f97316", accent_color := "#111827",
            hero_heading := "Find your next place",
            hero_subheading := "Modern homes, transparent offers, secure management.",
            announcement :=
              some "New listings dropping weekly — submit an offer in minutes!" })
    ∧ (∀ d rest, s.adminsettings = d :: rest →
        (read_settings s).2 = SettingsView.stored d.oid.render d.data) := by
  refine ⟨?_, ?_, ?_⟩
  · cases h : s.adminsettings <;> simp [read_settings, h]
  · intro h
    simp [read_settings, h]
  · intro d rest h
    simp [read_settings, h]

/-- Witness for C4 at concrete stores: an empty one and one holding a
settings document. -/
theorem readSettings_defaults_contract_witness :
    (read_settings sampleStore).2 = SettingsView.defaults
      { primary_color := "#f97316", accent_color := "#111827",
        hero_heading := "Find your next place",
        hero_subheading := "Modern homes, transparent offers, secure management.",
        announcement :=
          some "New listings dropping weekly — submit an offer in minutes!" }
    ∧ (read_settings settingsStore).2 =
        SettingsView.stored (ObjectId.render ⟨3⟩) sampleSettingsDoc :=
  ⟨(readSettings_defaults_contract sampleStore).2.1 rfl,
   (readSettings_defaults_contract settingsStore).2.2 ⟨⟨3⟩, sampleSettingsDoc⟩ [] rfl⟩

/-- C10: an Update Settings payload with every field unset performs no
store write at all — the store, including an empty settings collection,
is returned untouched — and the response is that of Read Settings. -/
theorem updateSettings_noop (s : Store) :
    update_settings s ⟨none, none, none, none, none⟩ = (s, (read_settings s).2) := by
  have h1 : update_settings s ⟨none, none, none, none, none⟩ = read_settings s := rfl
  rw [h1]
  cases h : s.adminsettings <;> simp [read_settings, h]

/-- C5: Update Settings with only `announcement` set merges exactly that
field into the stored settings document, leaves every other settings
field and every other collection at its prior value, and responds with
the settings as re-read from the store after the update. -/
theorem updateSettings_announcement_frame (s : Store) (d : SettingsStoredDoc)
    (rest : List SettingsStoredDoc) (a : String)
    (h : s.adminsettings = d :: rest) :
    (update_settings s ⟨none, none, none, none, some a⟩).1 =
      { s with adminsettings :=
          ⟨d.oid, { d.data with announcement := some a }⟩ :: rest }
    ∧ (update_settings s ⟨none, none, none, none, some a⟩).2 =
        SettingsView.stored d.oid.render { d.data with announcement := some a }
    ∧ (update_settings s ⟨none, none, none, none, some a⟩).2 =
        (read_settings (update_settings s ⟨none, none, none, none, some a⟩).1).2 := by
  have hu : update_settings s ⟨none, none, none, none, some a⟩ =
      read_settings { s with adminsettings :=
        ⟨d.oid, applySet d.data ⟨none, none, none, none, some a⟩⟩ :: rest } := by
    simp [update_settings, SettingsUpdate.isEmptyUpdate, h]
  have ha : applySet d.data ⟨none, none, none, none, some a⟩ =
      { d.data with announcement := some a } := rfl
  rw [hu, ha]
  exact ⟨rfl, rfl, rfl⟩

/-- Witness for C5 at the concrete settings store. -/
theorem updateSettings_announcement_frame_witness :
    (update_settings settingsStore ⟨none, none, none, none, some "Hello"⟩).1 =
      { settingsStore with adminsettings :=
          [⟨⟨3⟩, { sampleSettingsDoc with announcement := some "Hello" }⟩] }
    ∧ (update_settings settingsStore ⟨none, none, none, none, some "Hello"⟩).2 =
        SettingsView.stored (ObjectId.render ⟨3⟩)
          { sampleSettingsDoc with announcement := some "Hello" }
    ∧ (update_settings settingsStore ⟨none, none, none, none, some "Hello"⟩).2 =
        (read_settings
          (update_settings settingsStore ⟨none, none, none, none, some "Hello"⟩).1).2 :=
  updateSettings_announcement_frame settingsStore ⟨⟨3⟩, sampleSettingsDoc⟩ [] "Hello" rfl

/-- C1: creating a valid property through the gateway and getting it by
the returned identifier yields the stored document equal to the input on
every field, carried next to the newly assigned identifier, which is
distinct from the business fields and from every previously assigned
property identifier. The hypotheses say the store is well-formed: every
stored identifier was drawn from the counter, which stays below the
96-bit ObjectId bound. -/
theorem create_then_get_roundtrip (s : Store) (p : Property)
    (hfresh : ∀ d ∈ s.property, d.oid.val < s.nextId)
    (hbound : s.nextId < 16 ^ 24) :
    get_property (create_document_property s p).1 (create_document_property s p).2
      = Except.ok ((create_document_property s p).2, p)
    ∧ ∀ d ∈ s.property, d.oid.render ≠ (create_document_property s p).2 := by
  have hid : (create_document_property s p).2 = natToHex24 s.nextId := rfl
  constructor
  · have h1 : ensure_object_id (natToHex24 s.nextId) =
        Except.ok (⟨s.nextId⟩ : ObjectId) := by
      simp [ensure_object_id, objectIdValid_natToHex24,
        hexDecode_natToHex24 _ hbound]
    have h2 : ((create_document_property s p).1.property).find?
        (fun d => d.oid == (⟨s.nextId⟩ : ObjectId)) = some ⟨⟨s.nextId⟩, p⟩ := by
      show (s.property ++ [(⟨⟨s.nextId⟩, p⟩ : PropertyDoc)]).find? _ = _
      exact find?_fresh _ _ _ (fun d hd => Nat.ne_of_lt (hfresh d hd))
    rw [hid]
    simp [get_property, h1, h2]
    rfl
  · intro d hd
    rw [hid]
    intro hEq
    have : d.oid.val = s.nextId :=
      natToHex24_injOn _ _ (lt_trans (hfresh d hd) hbound) hbound hEq
    exact Nat.ne_of_lt (hfresh d hd) this

/-- Witness for C1 at the concrete sample store and property. -/
theorem create_then_get_roundtrip_witness :
    get_property (create_document_property sampleStore secondProperty).1
        (create_document_property sampleStore secondProperty).2
      = Except.ok ((create_document_property sampleStore secondProperty).2,
          secondProperty)
    ∧ ∀ d ∈ sampleStore.property,
        d.oid.render ≠ (create_document_property sampleStore secondProperty).2 :=
  create_then_get_roundtrip sampleStore secondProperty
    (by decide) (by show (6 : Nat) < 16 ^ 24; norm_num)

/-- An offer whose well-formed `property_id` matches nothing stored. -/
def missingOffer : Offer :=
  { sampleOffer with property_id := natToHex24 7 }

/-- C2: submitting an offer whose well-formed `property_id` matches no
stored property fails with 404 and performs no insert (the whole store
is returned unchanged); against an existing property it appends exactly
one offer document, acknowledges with the new identifier and the status
"submitted", the identifier differs from every previously stored
offer's, and the offer becomes retrievable via List Offers filtered by
that `property_id`. The well-formedness hypotheses on the store are as
in the create-then-get theorem. -/
theorem submit_offer_contract (s : Store) (o : Offer) :
    (objectIdValid o.property_id = true →
      s.property.find?
          (fun d => d.oid == (⟨hexDecode o.property_id⟩ : ObjectId)) = none →
      submit_offer s o =
        (s, Except.error ⟨404, "Property not found for this offer"⟩))
    ∧ (∀ dp, objectIdValid o.property_id = true →
        s.property.find?
            (fun d => d.oid == (⟨hexDecode o.property_id⟩ : ObjectId)) = some dp →
        (∀ d ∈ s.offer, d.oid.val < s.nextId) →
        s.nextId < 16 ^ 24 →
        (submit_offer s o).1.offer = s.offer ++ [⟨⟨s.nextId⟩, o⟩]
        ∧ (submit_offer s o).1.property = s.property
        ∧ (submit_offer s o).1.adminsettings = s.adminsettings
        ∧ (submit_offer s o).2 = Except.ok (natToHex24 s.nextId, "submitted")
        ∧ (∀ d ∈ s.offer, d.oid.render ≠ natToHex24 s.nextId)
        ∧ (natToHex24 s.nextId, o) ∈
            list_offers (submit_offer s o).1 (some o.property_id)) := by
  constructor
  · intro h hf
    simp [submit_offer, ensure_object_id, h, hf]
  · intro dp h hf hfresh hbound
    have hsub : submit_offer s o =
        ((create_document_offer s o).1,
          Except.ok ((create_document_offer s o).2, "submitted")) := by
      simp [submit_offer, ensure_object_id, h, hf]
    have hne : o.property_id ≠ "" := objectIdValid_ne_empty _ h
    rw [hsub]
    refine ⟨rfl, rfl, rfl, rfl, ?_, ?_⟩
    · intro d hd hEq
      have : d.oid.val = s.nextId :=
        natToHex24_injOn _ _ (lt_trans (hfresh d hd) hbound) hbound hEq
      exact Nat.ne_of_lt (hfresh d hd) this
    · refine List.mem_map.mpr ⟨⟨⟨s.nextId⟩, o⟩, ?_, rfl⟩
      refine List.mem_filter.mpr ⟨?_, ?_⟩
      · show _ ∈ s.offer ++ [(⟨⟨s.nextId⟩, o⟩ : OfferDoc)]
        simp
      · simp [condQ, hne]

/-- Witness for C2 at the concrete store: one submission against a
missing property, one against the stored property. -/
theorem submit_offer_contract_witness :
    submit_offer sampleStore missingOffer =
      (sampleStore, Except.error ⟨404, "Property not found for this offer"⟩)
    ∧ ((submit_offer sampleStore sampleOffer).1.offer =
          sampleStore.offer ++ [⟨⟨6⟩, sampleOffer⟩]
        ∧ (submit_offer sampleStore sampleOffer).1.property = sampleStore.property
        ∧ (submit_offer sampleStore sampleOffer).1.adminsettings =
            sampleStore.adminsettings
        ∧ (submit_offer sampleStore sampleOffer).2 =
            Except.ok (natToHex24 6, "submitted")
        ∧ (∀ d ∈ sampleStore.offer, d.oid.render ≠ natToHex24 6)
        ∧ (natToHex24 6, sampleOffer) ∈
            list_offers (submit_offer sampleStore sampleOffer).1
              (some sampleOffer.property_id)) :=
  ⟨(submit_offer_contract sampleStore missingOffer).1 (by decide) (by decide),
   (submit_offer_contract sampleStore sampleOffer).2 ⟨⟨5⟩, sampleProperty⟩
     (by decide) (by decide) (by simp [sampleStore])
     (by show (6 : Nat) < 16 ^ 24; norm_num)⟩

/-- C6: a negative value in any of the Property fields price, bedrooms,
bathrooms, area_sqft, or in the Offer field amount, fails validation and
is rejected before any store write (the store is returned unchanged with
a 422), while non-negative values satisfy the declared `ge=0`
constraints. -/
theorem nonneg_validation_contract (s : Store) (p : Property) (o : Offer) :
    ((p.price < 0 ∨ p.bedrooms < 0 ∨ p.bathrooms < 0 ∨ p.area_sqft < 0) →
      propertyValid p = false
      ∧ create_property_validated s p =
          (s, Except.error ⟨422, "Unprocessable Entity"⟩))
    ∧ (o.amount < 0 →
        offerValid o = false
        ∧ submit_offer_endpoint s o =
            (s, Except.error ⟨422, "Unprocessable Entity"⟩))
    ∧ (0 ≤ p.price → 0 ≤ p.bedrooms → 0 ≤ p.bathrooms → 0 ≤ p.area_sqft →
        propertyGeOk p = true)
    ∧ (0 ≤ o.amount → offerGeOk o = true) := by
  refine ⟨?_, ?_, ?_, ?_⟩
  · intro h
    have hval : propertyValid p = false := by
      rcases h with h | h | h | h <;>
        simp [propertyValid, propertyGeOk, not_le.mpr h]
    exact ⟨hval, by simp [create_property_validated, hval]⟩
  · intro h
    have hval : offerValid o = false := by
      simp [offerValid, offerGeOk, not_le.mpr h]
    exact ⟨hval, by simp [submit_offer_endpoint, hval]⟩
  · intro h1 h2 h3 h4
    simp [propertyGeOk, h1, h2, h3, h4]
  · intro h
    simp [offerGeOk, h]

/-- Witness for C6: negative values at each constrained field rejected,
non-negative sample values accepted. -/
theorem nonneg_validation_contract_witness :
    (propertyValid { sampleProperty with price := -1 } = false
      ∧ create_property_validated sampleStore { sampleProperty with price := -1 } =
          (sampleStore, Except.error ⟨422, "Unprocessable Entity"⟩))
    ∧ (offerValid { sampleOffer with amount := -5 } = false
        ∧ submit_offer_endpoint sampleStore { sampleOffer with amount := -5 } =
            (sampleStore, Except.error ⟨422, "Unprocessable Entity"⟩))
    ∧ propertyGeOk sampleProperty = true
    ∧ offerGeOk sampleOffer = true :=
  ⟨(nonneg_validation_contract sampleStore
      { sampleProperty with price := -1 } sampleOffer).1 (Or.inl (by decide)),
   ((nonneg_validation_contract sampleStore sampleProperty
      { sampleOffer with amount := -5 }).2.1 (by decide)),
   ((nonneg_validation_contract sampleStore sampleProperty sampleOffer).2.2.1
      (by decide) (by decide) (by decide) (by decide)),
   ((nonneg_validation_contract sampleStore sampleProperty sampleOffer).2.2.2
      (by decide))⟩

/-- A property payload whose five text fields are all empty. -/
def emptyTextProperty : Property :=
  { title := "", description := "", address := "", city := "", state := "",
    price := 1, bedrooms := 1, bathrooms := 1, area_sqft := 1,
    status := "available", images := [], tags := [] }

/-- C8 counterexample: schemas.py declares `title`, `description`,
`address`, `city`, `state` as plain `str` fields with no length
constraint, so a payload with all of them empty passes validation and is
written to the store, contrary to the claim that the empty string fails
validation. -/
theorem emptyText_accepted_counterexample :
    emptyTextProperty.title = ""
    ∧ propertyValid emptyTextProperty = true
    ∧ (create_property_validated sampleStore emptyTextProperty).2 =
        Except.ok (natToHex24 6)
    ∧ (create_property_validated sampleStore emptyTextProperty).1.property =
        sampleStore.property ++ [⟨⟨6⟩, emptyTextProperty⟩] := by
  refine ⟨rfl, by decide, rfl, rfl⟩

/-- C8 amended: the five text fields are required string fields, but no
constraint is declared on their contents, so validation is independent
of their values; in particular the empty string is accepted. -/
theorem textFields_unconstrained (p : Property) (t de ad c st : String) :
    propertyValid { p with title := t, description := de, address := ad,
                           city := c, state := st } = propertyValid p := rfl

/-- One optional parameter's contribution to the filter as the spec's
words state it, for comparison with `condQ`: "each provided optional
parameter adds an exact string-equality condition", with no truthiness
test on the provided value. -/
def condQ_specWords (param : Option String) (field : String) : Bool :=
  match param with
  | none => true
  | some c => field == c

/-- List Properties as the spec's words state it, built on
`condQ_specWords`; used only to compare against `list_properties`. -/
def list_properties_specWords (s : Store) (city status : Option String) :
    List (String × Property) :=
  (get_documents_property s
      (fun p => condQ_specWords city p.city && condQ_specWords status p.status)).map
    (fun d => (d.oid.render, d.data))

/-- C7 counterexample: with `city` provided as the empty string the code
adds no condition (Python truthiness), returning every property, while
the claimed exact string-equality condition would return none of them. -/
theorem providedEmpty_param_counterexample :
    list_properties sampleStore (some "") none =
      [(natToHex24 5, sampleProperty)]
    ∧ list_properties_specWords sampleStore (some "") none = [] := by
  constructor <;> rfl

/-- C7 amended: a provided, non-empty optional parameter adds an exact
string-equality condition on the corresponding field; a parameter not
provided — or provided as the empty string — contributes nothing; the
empty filter returns all documents of the kind; and List Offers applies
no identifier parsing to `property_id` (every string, well-formed or
not, yields an ordinary filtered list, never an error). -/
theorem list_filters_contract (s : Store) (city status pid : Option String) :
    (list_properties s none none =
      s.property.map (fun d => (d.oid.render, d.data)))
    ∧ (∀ x, x ∈ list_properties s city status ↔
        ∃ d, d ∈ s.property ∧ x = (d.oid.render, d.data)
          ∧ (∀ c, city = some c → c ≠ "" → d.data.city = c)
          ∧ (∀ c, status = some c → c ≠ "" → d.data.status = c))
    ∧ (list_offers s none = s.offer.map (fun d => (d.oid.render, d.data)))
    ∧ (∀ x, x ∈ list_offers s pid ↔
        ∃ d, d ∈ s.offer ∧ x = (d.oid.render, d.data)
          ∧ (∀ c, pid = some c → c ≠ "" → d.data.property_id = c)) := by
  refine ⟨?_, ?_, ?_, ?_⟩
  · simp [list_properties, get_documents_property, condQ]
  · intro x
    simp only [list_properties, get_documents_property, List.mem_map,
      List.mem_filter, Bool.and_eq_true, condQ_eq_true_iff]
    constructor
    · rintro ⟨d, ⟨hd, hcity, hstatus⟩, hx⟩
      exact ⟨d, hd, hx.symm, hcity, hstatus⟩
    · rintro ⟨d, hd, hx, hcity, hstatus⟩
      exact ⟨d, ⟨hd, hcity, hstatus⟩, hx.symm⟩
  · simp [list_offers, get_documents_offer, condQ]
  · intro x
    simp only [list_offers, get_documents_offer, List.mem_map,
      List.mem_filter, condQ_eq_true_iff]
    constructor
    · rintro ⟨d, ⟨hd, hpid⟩, hx⟩
      exact ⟨d, hd, hx.symm, hpid⟩
    · rintro ⟨d, hd, hx, hpid⟩
      exact ⟨d, ⟨hd, hpid⟩, hx.symm⟩

/-- Witness for C7 (amended) at the concrete store: the characterization
instantiated with a matching city filter, and with a malformed
`property_id` passed to List Offers without error. -/
theorem list_filters_contract_witness :
    ((natToHex24 5, sampleProperty) ∈
      list_properties sampleStore (some "Austin") none)
    ∧ list_offers sampleStore (some "not-an-objectid") =
        sampleStore.offer.map (fun d => (d.oid.render, d.data)) :=
  ⟨((list_filters_contract sampleStore (some "Austin") none none).2.1
      (natToHex24 5, sampleProperty)).mpr
    ⟨⟨⟨5⟩, sampleProperty⟩, by simp [sampleStore], rfl,
     by intro c hc hne; cases hc; rfl,
     by intro c hc; cases hc⟩,
   by rfl⟩

/-- C9: every document any handler returns carries its identifier
rendered as a plain string from the store-native ObjectId: each element
of a list result, a successful Get Property result, and a stored
settings document read back all pair the string rendering of some
stored document's native identifier with that document's fields. -/
theorem string_id_contract (s : Store) :
    (∀ city status x, x ∈ list_properties s city status →
      ∃ d, d ∈ s.property ∧ x = (d.oid.render, d.data))
    ∧ (∀ pid x, get_property s pid = Except.ok x →
        ∃ d, d ∈ s.property ∧ x = (d.oid.render, d.data))
    ∧ (∀ pid x, x ∈ list_offers s pid →
        ∃ d, d ∈ s.offer ∧ x = (d.oid.render, d.data))
    ∧ (∀ d rest, s.adminsettings = d :: rest →
        (read_settings s).2 = SettingsView.stored d.oid.render d.data) := by
  refine ⟨?_, ?_, ?_, ?_⟩
  · intro city status x hx
    rcases List.mem_map.mp hx with ⟨d, hd, hxd⟩
    exact ⟨d, (List.mem_filter.mp hd).1, hxd.symm⟩
  · intro pid x hx
    rw [get_property_eq] at hx
    rcases hb : objectIdValid pid with _ | _
    · rw [hb] at hx
      simp at hx
    · rw [hb] at hx
      rw [if_pos rfl] at hx
      cases hf : s.property.find? (fun d => d.oid == (⟨hexDecode pid⟩ : ObjectId)) with
      | none => rw [hf] at hx; exact absurd hx (by simp)
      | some d =>
          rw [hf] at hx
          exact ⟨d, List.mem_of_find?_eq_some hf, (Except.ok.inj hx).symm⟩
  · intro pid x hx
    rcases List.mem_map.mp hx with ⟨d, hd, hxd⟩
    exact ⟨d, (List.mem_filter.mp hd).1, hxd.symm⟩
  · intro d rest h
    simp [read_settings, h]

/-- Witness for C9 at concrete stores: one element of each result kind. -/
theorem string_id_contract_witness :
    (∃ d, d ∈ sampleStore.property
      ∧ (natToHex24 5, sampleProperty) = (d.oid.render, d.data))
    ∧ (read_settings settingsStore).2 =
        SettingsView.stored (ObjectId.render ⟨3⟩) sampleSettingsDoc :=
  ⟨(string_id_contract sampleStore).1 none none (natToHex24 5, sampleProperty)
      (by decide),
   (string_id_contract settingsStore).2.2.2 ⟨⟨3⟩, sampleSettingsDoc⟩ [] rfl⟩

end PropertySale
